import Mathlib

/-!
Verification of the triage decision engine of the `kanini-hackathon-project`
repository (FastAPI backend under `backend/app/`).

Shallow embedding conventions:
* Python `float` arithmetic is modelled exactly over `ℚ` (the constants
  `0.15`, `0.1`, `38.5`, ... are exact rationals here).
* Python `int(x)` truncates toward zero; this is `pyInt` below.
* Python `round(x, 1)` rounds half-to-even in the last kept digit; this is
  `round1` below (float representation error is abstracted away).
* Python dicts keep insertion order; association structures below use
  first-occurrence key order (`keyOrder`).
* Numeric formatting inside audit/message strings (`f"{x}%"`) is abstracted
  by `fmtQ`; no claim depends on the decimal rendering of a number.
* ISO-8601 `created_at` timestamp strings compare lexicographically exactly
  as chronologically, so timestamps are modelled as naturals.
-/

namespace Triage

/-- Python `int()` applied to an exact rational: truncation toward zero. -/
def pyInt (q : ℚ) : ℤ := if q < 0 then ⌈q⌉ else ⌊q⌋

/-- Python `round` to an integer: nearest, ties to even (banker's rounding). -/
def roundHalfEven (x : ℚ) : ℤ :=
  if Int.fract x < 1/2 then ⌊x⌋
  else if 1/2 < Int.fract x then ⌊x⌋ + 1
  else if Even ⌊x⌋ then ⌊x⌋ else ⌊x⌋ + 1

/-- Python `round(x, 1)`: one decimal digit kept, ties to even. -/
def round1 (x : ℚ) : ℚ := (roundHalfEven (10 * x) : ℚ) / 10

/-- Stand-in for Python's decimal rendering of a number inside an f-string.
No claim depends on the exact digits, only on which strings are empty. -/
def fmtQ (x : ℚ) : String := toString x

/-- One admitted patient, as the dictionaries held in the in-memory store and
the `PatientRecord` rows of `backend/app/main.py`.  All fields that the
routing / priority / wait / fairness / discharge operations read are present;
the upstream schema (`PatientCreate`) makes every field mandatory, so the
`dict.get` defaults in the Python code are unreachable and the fields are
total here. -/
structure Patient where
  patient_id : String
  risk_level : String
  confidence_score : ℚ
  age : ℤ
  gender : String
  symptoms : List String
  recommended_department : String
  priority_score : ℤ
  created_at : ℕ
  estimated_wait_minutes : ℤ
  is_active : Bool
deriving DecidableEq

/-! ### `backend/app/department.py` -/

/-- `DEPARTMENTS` from `department.py`. -/
def DEPARTMENTS : List String :=
  ["General Medicine", "Cardiology", "Neurology", "Emergency", "Pulmonology"]

/-- `SYMPTOM_TO_DEPT` from `department.py`: ordered rules
(trigger symptom keywords, target department), first match wins. -/
def SYMPTOM_TO_DEPT : List (List String × String) :=
  [ (["chest_pain", "shortness_of_breath"], "Cardiology"),
    (["stroke_symptoms", "seizure", "unconscious"], "Neurology"),
    (["bleeding", "trauma", "burn", "unconscious"], "Emergency"),
    (["shortness_of_breath", "allergic_reaction"], "Pulmonology"),
    (["chest_pain"], "Cardiology"),
    (["headache", "dizziness", "stroke_symptoms"], "Neurology") ]

/-- `RISK_TO_DEFAULT_DEPT.get(risk_level, "General Medicine")` from
`department.py`. -/
def RISK_TO_DEFAULT_DEPT (risk_level : String) : String :=
  if risk_level = "high" then "Emergency"
  else if risk_level = "medium" then "General Medicine"
  else if risk_level = "low" then "General Medicine"
  else "General Medicine"

/-- `", ".join(xs)`. -/
def joinComma (xs : List String) : String := String.intercalate ", " xs

/-- The f-string `recommend_department` builds when a rule matched. -/
def matched_reason (risk_level dept : String) (hits : List String) : String :=
  "Risk assessment indicates " ++ risk_level.toUpper ++ " severity. " ++
  "Clinical markers (" ++ joinComma hits ++ ") align with " ++ dept ++
  " protocols. Recommended for immediate " ++ dept ++ " evaluation."

/-- The f-string `recommend_department` builds when no rule matched. -/
def fallback_reason (risk_level dept clinical_findings : String) : String :=
  "Risk assessment indicates " ++ risk_level.toUpper ++
  " severity based on vitals analysis. " ++ clinical_findings ++
  " No specific specialty criteria met; routing to " ++ dept ++
  " for comprehensive workup."

/-- `recommend_department` from `department.py`.  The Python loop over
`SYMPTOM_TO_DEPT` returning on the first rule any of whose keywords is in
`set(symptoms)` is `List.find?`; membership in `set(symptoms)` is list
membership. -/
def recommend_department (risk_level : String) (symptoms : List String) :
    String × String :=
  let dept := RISK_TO_DEFAULT_DEPT risk_level
  let matched_symptoms := symptoms.filter (fun s => s ∈ symptoms)
  let clinical_findings :=
    if matched_symptoms ≠ [] then
      "Patient presents with " ++ joinComma matched_symptoms ++ "."
    else "Non-specific presentation."
  match SYMPTOM_TO_DEPT.find? (fun rule => rule.1.any (fun s => s ∈ symptoms)) with
  | some rule =>
      let hits := rule.1.filter (fun s => s ∈ symptoms)
      (rule.2, matched_reason risk_level rule.2 hits)
  | none => (dept, fallback_reason risk_level dept clinical_findings)

/-- `risk_to_priority_score` from `department.py`:
`min(100, int(base + confidence * 0.15))`. -/
def risk_to_priority_score (risk_level : String) (confidence : ℚ) : ℤ :=
  let base : ℤ :=
    if risk_level = "high" then 85
    else if risk_level = "medium" then 50
    else if risk_level = "low" then 20
    else 30
  min 100 (pyInt ((base : ℚ) + confidence * (15/100)))

/-! ### `backend/app/severity_timeline.py` -/

/-- `predict_severity_timeline` from `severity_timeline.py`. -/
def predict_severity_timeline (risk_level : String) (spo2 : ℤ)
    (heart_rate : ℤ) (temperature : ℚ) (blood_pressure_systolic : ℤ) :
    Option String :=
  if risk_level = "high" then
    if spo2 < 92 then
      some "Critical: Low SpO2. Risk may escalate within 1–2 hours without intervention."
    else if heart_rate > 120 ∨ blood_pressure_systolic > 180 then
      some "Unstable vitals. Risk may escalate in 1–2 hours; monitor closely."
    else some "High risk. Monitor; condition may escalate in 2–4 hours if untreated."
  else if risk_level = "medium" then
    if 92 ≤ spo2 ∧ spo2 < 95 then
      some "Moderate risk. SpO2 below normal; may escalate in 4–6 hours if not improved."
    else if temperature > 38.5 then
      some "Fever present. Risk may escalate in 4–6 hours if fever persists."
    else if heart_rate > 100 then
      some "Elevated heart rate. Monitor; may escalate in 4–6 hours."
    else some "Moderate risk. Reassess in 2–4 hours."
  else
    if spo2 < 95 ∨ temperature > 37.5 then
      some "Low risk. Reassess in 4–6 hours if symptoms persist."
    else none

/-- One row of the severity decision table, as §4.5 of the spec describes it:
a guard on (risk tier, vitals) and the message the row yields. -/
structure SevRule where
  applies : String → ℤ → ℤ → ℚ → ℤ → Bool
  message : String

/-- Modelled from the spec (§4.5): the severity decision table "keyed first by
risk tier, then by vital-threshold checks in a fixed priority order", read off
from the rule order of `severity_timeline.py`. -/
def severity_rules : List SevRule :=
  [ ⟨fun r s _ _ _ => decide (r = "high" ∧ s < 92),
      "Critical: Low SpO2. Risk may escalate within 1–2 hours without intervention."⟩,
    ⟨fun r _ hr _ bp => decide (r = "high" ∧ (hr > 120 ∨ bp > 180)),
      "Unstable vitals. Risk may escalate in 1–2 hours; monitor closely."⟩,
    ⟨fun r _ _ _ _ => decide (r = "high"),
      "High risk. Monitor; condition may escalate in 2–4 hours if untreated."⟩,
    ⟨fun r s _ _ _ => decide (r = "medium" ∧ (92 ≤ s ∧ s < 95)),
      "Moderate risk. SpO2 below normal; may escalate in 4–6 hours if not improved."⟩,
    ⟨fun r _ _ t _ => decide (r = "medium" ∧ t > 38.5),
      "Fever present. Risk may escalate in 4–6 hours if fever persists."⟩,
    ⟨fun r _ hr _ _ => decide (r = "medium" ∧ hr > 100),
      "Elevated heart rate. Monitor; may escalate in 4–6 hours."⟩,
    ⟨fun r _ _ _ _ => decide (r = "medium"),
      "Moderate risk. Reassess in 2–4 hours."⟩,
    ⟨fun r s _ t _ => decide (r = "low" ∧ (s < 95 ∨ t > 37.5)),
      "Low risk. Reassess in 4–6 hours if symptoms persist."⟩ ]

/-- First matching row of the spec's severity decision table. -/
def sev_first_match (risk_level : String) (spo2 heart_rate : ℤ)
    (temperature : ℚ) (blood_pressure_systolic : ℤ) : Option String :=
  (severity_rules.find? (fun rule =>
      rule.applies risk_level spo2 heart_rate temperature blood_pressure_systolic)).map
    (fun rule => rule.message)

/-- Normal vital ranges, `VITAL_RANGES` from `backend/app/validation.py`
(the repository's own definition of "vitals in normal range"). -/
def vitals_in_normal_range (spo2 heart_rate : ℤ) (temperature : ℚ)
    (blood_pressure_systolic : ℤ) : Prop :=
  (60 ≤ heart_rate ∧ heart_rate ≤ 100) ∧
  (90 ≤ blood_pressure_systolic ∧ blood_pressure_systolic ≤ 120) ∧
  (36.1 ≤ temperature ∧ temperature ≤ 37.2) ∧
  (95 ≤ spo2 ∧ spo2 ≤ 100)

instance (s hr : ℤ) (t : ℚ) (bp : ℤ) :
    Decidable (vitals_in_normal_range s hr t bp) := by
  unfold vitals_in_normal_range; infer_instance

/-! ### `backend/app/load_balancing.py` -/

/-- `DEFAULT_CAPACITY` from `load_balancing.py`. -/
def DEFAULT_CAPACITY : ℕ := 20

/-- `DEPARTMENT_MAX_CAPACITY` from `load_balancing.py` (a dict keyed by
department name). -/
def DEPARTMENT_MAX_CAPACITY (d : String) : Option ℕ :=
  if d = "General Medicine" then some 30
  else if d = "Cardiology" then some 15
  else if d = "Neurology" then some 12
  else if d = "Emergency" then some 25
  else if d = "Pulmonology" then some 15
  else none

/-- `LOAD_THRESHOLD_PERCENT` from `load_balancing.py`. -/
def LOAD_THRESHOLD_PERCENT : ℚ := 85

/-- Point update of a tally function (one dict-counter increment). -/
def bump (counts : String → ℕ) (d : String) : String → ℕ :=
  fun x => if x = d then counts x + 1 else counts x

/-- `get_department_counts` from `load_balancing.py`: the counter dict
`{d: 0 for d in DEPARTMENTS}` is the zero tally restricted to `DEPARTMENTS`;
a patient whose `recommended_department` is falsy (`""`) or not a key is
skipped. -/
def get_department_counts (patients : List Patient) : String → ℕ :=
  patients.foldl
    (fun counts p =>
      let d := p.recommended_department
      if d ≠ "" ∧ d ∈ DEPARTMENTS then bump counts d else counts)
    (fun _ => 0)

/-- `DEPARTMENT_MAX_CAPACITY.get(dept, DEFAULT_CAPACITY)`. -/
def dept_capacity (d : String) : ℕ :=
  (DEPARTMENT_MAX_CAPACITY d).getD DEFAULT_CAPACITY

/-- Load percentage of one department:
`round(100 * current / cap, 1) if cap > 0 else 0` from
`get_department_status`. -/
def dept_load_pct (patients : List Patient) (d : String) : ℚ :=
  if 0 < dept_capacity d then
    round1 (100 * (get_department_counts patients d : ℚ) / (dept_capacity d : ℚ))
  else 0

/-- One entry of the list returned by `get_department_status`. -/
structure DeptStatus where
  department : String
  max_capacity : ℕ
  current_patients : ℕ
  load_percentage : ℚ
  overloaded : Bool
deriving DecidableEq

/-- The status entry `get_department_status` builds for one department. -/
def mk_status (patients : List Patient) (dept : String) : DeptStatus :=
  { department := dept
    max_capacity := dept_capacity dept
    current_patients := get_department_counts patients dept
    load_percentage := dept_load_pct patients dept
    overloaded := decide (LOAD_THRESHOLD_PERCENT ≤ dept_load_pct patients dept) }

/-- `get_department_status` from `load_balancing.py`. -/
def get_department_status (patients : List Patient) : List DeptStatus :=
  DEPARTMENTS.map (mk_status patients)

/-- The "no alternate with capacity" message of
`find_alternate_department`. -/
def remains_msg (preferred : String) (load : ℚ) : String :=
  preferred ++ " overloaded (" ++ fmtQ load ++
  "%). No alternate with capacity; patient remains routed to " ++ preferred ++ "."

/-- The "patient routed to alternate" message of `find_alternate_department`
(`{100 - load:.0f}` renders the integer `round(100 - load)`). -/
def routed_msg (preferred : String) (load : ℚ) (cand : String)
    (cand_load : ℚ) : String :=
  preferred ++ " overloaded (" ++ fmtQ load ++ "%). Patient routed to " ++
  cand ++ " (available " ++ fmtQ (roundHalfEven (100 - cand_load) : ℚ) ++ "%)."

/-- The fixed clinical-capability preference order (`critical_depts` in
`find_alternate_department`). -/
def critical_depts : List String :=
  ["Emergency", "Cardiology", "Pulmonology", "Neurology", "General Medicine"]

/-- The `available` list of `find_alternate_department`: departments other
than the preferred one that are not overloaded. -/
def available_departments (preferred_dept : String)
    (patients : List Patient) : List DeptStatus :=
  (get_department_status patients).filter
    (fun s => s.department ≠ preferred_dept ∧ ¬ s.overloaded)

/-- `find_alternate_department` from `load_balancing.py`. -/
def find_alternate_department (preferred_dept : String) (_risk_level : String)
    (patients : List Patient) : Option String × String :=
  let status := get_department_status patients
  match status.find? (fun s => s.department = preferred_dept) with
  | none => (none, "")
  | some preferred_status =>
    if preferred_status.load_percentage < LOAD_THRESHOLD_PERCENT then (none, "")
    else
      let available := available_departments preferred_dept patients
      match available with
      | [] =>
          (some preferred_dept,
            remains_msg preferred_dept preferred_status.load_percentage)
      | alt0 :: _ =>
        match critical_depts.findSome?
            (fun d => available.find? (fun s => s.department = d)) with
        | some cand =>
            (some cand.department,
              routed_msg preferred_dept preferred_status.load_percentage
                cand.department cand.load_percentage)
        | none =>
            (some alt0.department,
              routed_msg preferred_dept preferred_status.load_percentage
                alt0.department alt0.load_percentage)

/-- `route_with_load_balancing` from `load_balancing.py`. -/
def route_with_load_balancing (preferred_department : String)
    (risk_level : String) (patients : List Patient) : String × String :=
  match find_alternate_department preferred_department risk_level patients with
  | (none, _) => (preferred_department, "")
  | (some alternate, msg) => (alternate, msg)

/-! ### `_update_estimated_waits` from `backend/app/main.py` -/

/-- `BASE_WAIT_MINUTES` from `main.py`. -/
def BASE_WAIT_MINUTES : ℚ := 15

/-- The sort key `(-priority_score, created_at)` of `_update_estimated_waits`,
as the "comes no later than" relation: higher priority first, then earlier
creation timestamp first. -/
def waitRel (a b : Patient) : Prop :=
  b.priority_score < a.priority_score ∨
  (a.priority_score = b.priority_score ∧ a.created_at ≤ b.created_at)

instance : DecidableRel waitRel := fun a b => by
  unfold waitRel; infer_instance

instance : IsTotal Patient waitRel where
  total a b := by
    unfold waitRel
    rcases lt_trichotomy a.priority_score b.priority_score with h | h | h
    · exact Or.inr (Or.inl h)
    · rcases Nat.le_total a.created_at b.created_at with h' | h'
      · exact Or.inl (Or.inr ⟨h, h'⟩)
      · exact Or.inr (Or.inr ⟨h.symm, h'⟩)
    · exact Or.inl (Or.inl h)

instance : IsTrans Patient waitRel where
  trans a b c hab hbc := by
    unfold waitRel at *
    rcases hab with h1 | ⟨h1, h1'⟩ <;> rcases hbc with h2 | ⟨h2, h2'⟩
    · exact Or.inl (h2.trans h1)
    · exact Or.inl (h2 ▸ h1)
    · exact Or.inl (h1 ▸ h2)
    · exact Or.inr ⟨h1.trans h2, h1'.trans h2'⟩

/-- The per-department tally `dept_load` of `_update_estimated_waits`
(every patient counts, whatever its department string). -/
def dept_load_map (store : List Patient) : String → ℕ :=
  store.foldl (fun m p => bump m p.recommended_department) (fun _ => 0)

/-- `dept_load.get(dept, 1)`: a tally value is at least 1 whenever the key is
present and the lookup defaults to 1 when absent, so the dict lookup with
default 1 is `max 1`. -/
def load_lookup (m : String → ℕ) (d : String) : ℕ := max 1 (m d)

/-- The per-slot wait formula of `_update_estimated_waits` for the case at
0-based rank `rank`:
`max(5, int(BASE * (i+1) * load_factor * resource_pressure / priority_factor))`
with `load_factor = 1 + dept_count*0.1`,
`resource_pressure = 1 + high_count*0.15`,
`priority_factor = max(0.5, priority/50)`. -/
def wait_minutes_for (rank : ℕ) (dept_count : ℕ) (high_count : ℕ)
    (priority : ℤ) : ℤ :=
  let load_factor : ℚ := 1 + (dept_count : ℚ) * (1/10)
  let resource_pressure : ℚ := 1 + (high_count : ℚ) * (15/100)
  let priority_factor : ℚ := max (1/2) ((priority : ℚ) / 50)
  max 5 (pyInt (BASE_WAIT_MINUTES * ((rank : ℚ) + 1) * load_factor *
    resource_pressure / priority_factor))

/-- `_update_estimated_waits` from `main.py`.  Python's `sorted` is the unique
stable sort for the key, hence `List.insertionSort waitRel` (Mathlib's
insertion sort is stable).  The Python function mutates each dict in place;
here the roster is returned in processing order with the new waits — the same
records up to order. -/
def _update_estimated_waits (store : List Patient) : List Patient :=
  if store = [] then store
  else
    let dept_load := dept_load_map store
    let high_risk_count := (store.filter (fun p => p.risk_level = "high")).length
    let ordered := List.insertionSort waitRel store
    ordered.enum.map (fun ip =>
      { ip.2 with
          estimated_wait_minutes :=
            wait_minutes_for ip.1
              (load_lookup dept_load ip.2.recommended_department)
              high_risk_count ip.2.priority_score })

/-! ### `backend/app/fairness.py` -/

/-- `AGE_GROUPS` from `fairness.py`. -/
def AGE_GROUPS : List String := ["0-17", "18-39", "40-59", "60-79", "80+"]

/-- `_age_group` from `fairness.py`. -/
def age_group (age : ℤ) : String :=
  if age < 18 then "0-17"
  else if age < 40 then "18-39"
  else if age < 60 then "40-59"
  else if age < 80 then "60-79"
  else "80+"

/-- Insert a key at the back unless already present (Python dict key
creation). -/
def insertKey (l : List String) (x : String) : List String :=
  if x ∈ l then l else l ++ [x]

/-- Iteration order of the keys of a Python dict built by tallying `xs`:
first-occurrence order. -/
def keyOrder (xs : List String) : List String := xs.foldl insertKey []

/-- Key order of `gender_risk` in `compute_fairness_metrics`. -/
def genderOrder (patients : List Patient) : List String :=
  keyOrder (patients.map (fun p => p.gender))

/-- Key order of `age_risk` in `compute_fairness_metrics`. -/
def ageOrder (patients : List Patient) : List String :=
  keyOrder (patients.map (fun p => age_group p.age))

/-- `gender_risk[g][r]` of `compute_fairness_metrics`. -/
def gender_risk_count (patients : List Patient) (g r : String) : ℕ :=
  (patients.filter (fun p => p.gender = g ∧ p.risk_level = r)).length

/-- `age_risk[a][r]` of `compute_fairness_metrics`. -/
def age_risk_count (patients : List Patient) (a r : String) : ℕ :=
  (patients.filter (fun p => age_group p.age = a ∧ p.risk_level = r)).length

/-- `sum(gender_risk[g].values())`: each patient lands in exactly one risk
key, so this is the group's size. -/
def gender_total (patients : List Patient) (g : String) : ℕ :=
  (patients.filter (fun p => p.gender = g)).length

/-- `sum(age_risk[a].values())`. -/
def age_total (patients : List Patient) (a : String) : ℕ :=
  (patients.filter (fun p => age_group p.age = a)).length

/-- `high_risk_rate` of `compute_fairness_metrics` for a gender group:
`(high / total * 100) if total else 0`. -/
def gender_rate (patients : List Patient) (g : String) : ℚ :=
  if gender_total patients g ≠ 0 then
    (gender_risk_count patients g "high" : ℚ) / (gender_total patients g : ℚ) * 100
  else 0

/-- `high_risk_rate` for an age group. -/
def age_rate (patients : List Patient) (a : String) : ℚ :=
  if age_total patients a ≠ 0 then
    (age_risk_count patients a "high" : ℚ) / (age_total patients a : ℚ) * 100
  else 0

/-- `avg_rate`: mean over the gender rates followed by the age rates
(`sum(all_rates)/len(all_rates) if all_rates else 0`). -/
def avg_rate (patients : List Patient) : ℚ :=
  let all_rates := (genderOrder patients).map (gender_rate patients) ++
    (ageOrder patients).map (age_rate patients)
  if all_rates.length ≠ 0 then all_rates.sum / (all_rates.length : ℚ) else 0

/-- The gender imbalance message of `compute_fairness_metrics`
(`{r:.1f}` renders the rate rounded to one decimal). -/
def gender_alert_msg (g : String) (r avg : ℚ) : String :=
  "Gender \x27" ++ g ++ "\x27 has high-risk rate " ++ fmtQ (round1 r) ++
  "% (avg " ++ fmtQ (round1 avg) ++ "%). Consider reviewing for bias."

/-- The age-group imbalance message of `compute_fairness_metrics`. -/
def age_alert_msg (a : String) (r avg : ℚ) : String :=
  "Age group \x27" ++ a ++ "\x27 has high-risk rate " ++ fmtQ (round1 r) ++
  "% (avg " ++ fmtQ (round1 avg) ++ "%). Consider reviewing for bias."

/-- The two alert scan loops of `compute_fairness_metrics`: gender groups in
dict order first, then age groups; the first group with
`avg_rate > 0 and r > avg_rate * 2` wins.  (`if not imbalance_alert` in the
source also treats `""` as unset; the messages are never empty, so this is
the plain option fall-through.) -/
def imbalance_alert (patients : List Patient) : Option String :=
  let avg := avg_rate patients
  match (genderOrder patients).find?
      (fun g => decide (0 < avg) && decide (gender_rate patients g > avg * 2)) with
  | some g => some (gender_alert_msg g (gender_rate patients g) avg)
  | none =>
    ((ageOrder patients).find?
        (fun a => decide (0 < avg) && decide (age_rate patients a > avg * 2))).map
      (fun a => age_alert_msg a (age_rate patients a) avg)

/-- `overall_high_pct` of `compute_fairness_metrics`. -/
def overall_high_pct (patients : List Patient) : ℚ :=
  if patients.length ≠ 0 then
    ((patients.filter (fun p => p.risk_level = "high")).length : ℚ) /
      (patients.length : ℚ) * 100
  else 0

/-- One row of the UI heatmap data. -/
structure HeatRow where
  group : String
  low : ℕ
  medium : ℕ
  high : ℕ
deriving DecidableEq

/-- The value returned by `compute_fairness_metrics`, with the nested dicts
flattened into named fields; `overall_high_risk_pct` is absent from the
empty-roster return, hence optional. -/
structure FairnessResult where
  gender_risk_matrix : List (String × List (String × ℕ))
  age_group_risk_matrix : List (String × List (String × ℕ))
  imbalance_alert : Option String
  gender_parity : List (String × ℚ)
  age_parity : List (String × ℚ)
  overall_high_risk_pct : Option ℚ
  heatmap_gender : List HeatRow
  heatmap_age : List HeatRow
deriving DecidableEq

/-- `compute_fairness_metrics` from `fairness.py`. -/
def compute_fairness_metrics (patients : List Patient) : FairnessResult :=
  if patients = [] then
    { gender_risk_matrix := []
      age_group_risk_matrix := []
      imbalance_alert := none
      gender_parity := []
      age_parity := []
      overall_high_risk_pct := none
      heatmap_gender := []
      heatmap_age := [] }
  else
    let overall := overall_high_pct patients
    { gender_risk_matrix :=
        (genderOrder patients).map (fun g =>
          (g, (keyOrder ((patients.filter (fun p => p.gender = g)).map
                (fun p => p.risk_level))).map
              (fun r => (r, gender_risk_count patients g r))))
      age_group_risk_matrix :=
        (ageOrder patients).map (fun a =>
          (a, (keyOrder ((patients.filter (fun p => age_group p.age = a)).map
                (fun p => p.risk_level))).map
              (fun r => (r, age_risk_count patients a r))))
      imbalance_alert := imbalance_alert patients
      gender_parity :=
        (genderOrder patients).map (fun g =>
          (g, if overall ≠ 0 then gender_rate patients g / overall else 1))
      age_parity :=
        (ageOrder patients).map (fun a =>
          (a, if overall ≠ 0 then age_rate patients a / overall else 1))
      overall_high_risk_pct := some (round1 overall)
      heatmap_gender :=
        (List.insertionSort (fun a b : String => a ≤ b)
            (genderOrder patients)).map
          (fun g =>
            { group := g
              low := gender_risk_count patients g "low"
              medium := gender_risk_count patients g "medium"
              high := gender_risk_count patients g "high" })
      heatmap_age :=
        (AGE_GROUPS.filter (fun a => a ∈ ageOrder patients)).map
          (fun a =>
            { group := a
              low := age_risk_count patients a "low"
              medium := age_risk_count patients a "medium"
              high := age_risk_count patients a "high" }) }

/-! ### `discharge_patient` from `backend/app/main.py`

`main.py` registers two handlers for
`POST /api/patients/{patient_id}/discharge`; Starlette dispatches a request
to the first registered route, so the handler at line 653 (which sets
`record.is_active = False` and commits) serves every discharge, and the later
duplicate (which would delete the row) is unreachable.  The SQLAlchemy query
`filter(patient_id == ...).first()` updates the first matching record. -/

/-- The effective discharge operation on the roster: clear `is_active` on the
first record whose `patient_id` matches; `none` is the 404 branch. -/
def discharge_patient (pid : String) : List Patient → Option (List Patient)
  | [] => none
  | r :: rs =>
    if r.patient_id = pid then some ({ r with is_active := false } :: rs)
    else (discharge_patient pid rs).map (fun rest => r :: rest)

/-- Forget the active flag (for frame conditions). -/
def clear_active (p : Patient) : Patient := { p with is_active := false }

/-- Forget the wait estimate (for permutation statements about the wait
recompute). -/
def strip_wait (p : Patient) : Patient := { p with estimated_wait_minutes := 0 }

/-! ## Helper lemmas -/

theorem pyInt_eq_floor (q : ℚ) (h : 0 ≤ q) : pyInt q = ⌊q⌋ := by
  unfold pyInt
  exact if_neg (not_lt.mpr h)

theorem pyInt_mono {q r : ℚ} (h : q ≤ r) : pyInt q ≤ pyInt r := by
  unfold pyInt
  split_ifs with hq hr hr
  · exact Int.ceil_le_ceil h
  · calc ⌈q⌉ ≤ 0 := Int.ceil_le.mpr (by exact_mod_cast hq.le)
      _ ≤ ⌊r⌋ := Int.floor_nonneg.mpr (not_lt.mp hr)
  · exact absurd (lt_of_le_of_lt h hr) hq
  · exact Int.floor_le_floor h

/-! ## C3: priority scorer is tier-monotone, confidence-monotone, bounded -/

/-- C3.  For every confidence `c ∈ [0,100]`: the score for tier `high` is at
least that for `medium`, which is at least that for `low`; for any fixed tier
a strictly higher confidence (still within `[0,100]`) never lowers the score;
and for every tier the score lies in `[0,100]`. -/
theorem risk_to_priority_score_spec (c : ℚ) (h0 : 0 ≤ c) (_h1 : c ≤ 100) :
    (risk_to_priority_score "medium" c ≤ risk_to_priority_score "high" c ∧
      risk_to_priority_score "low" c ≤ risk_to_priority_score "medium" c) ∧
    (∀ tier c', c < c' → c' ≤ 100 →
      risk_to_priority_score tier c ≤ risk_to_priority_score tier c') ∧
    (∀ tier, 0 ≤ risk_to_priority_score tier c ∧
      risk_to_priority_score tier c ≤ 100) := by
  have hterm : ∀ b : ℚ, 0 ≤ b → 0 ≤ b + c * (15/100) := by
    intro b hb
    have : 0 ≤ c * (15/100) := mul_nonneg h0 (by norm_num)
    linarith
  refine ⟨⟨?_, ?_⟩, ?_, ?_⟩
  · unfold risk_to_priority_score
    refine min_le_min le_rfl (pyInt_mono ?_)
    simp only [String.reduceEq, if_false, if_true, reduceIte]
    push_cast
    linarith
  · unfold risk_to_priority_score
    refine min_le_min le_rfl (pyInt_mono ?_)
    simp only [String.reduceEq, if_false, if_true, reduceIte]
    push_cast
    linarith
  · intro tier c' hlt _
    unfold risk_to_priority_score
    refine min_le_min le_rfl (pyInt_mono ?_)
    have : c * (15/100) ≤ c' * (15/100) :=
      mul_le_mul_of_nonneg_right hlt.le (by norm_num)
    linarith
  · intro tier
    unfold risk_to_priority_score
    constructor
    · refine le_min (by norm_num) ?_
      split_ifs with ht1 ht2 ht3 <;>
      · rw [pyInt_eq_floor _ (hterm _ (by norm_num))]
        exact Int.floor_nonneg.mpr (hterm _ (by norm_num))
    · exact min_le_left _ _

/-- Witness for C3 at confidence 80 (and 100 for the strict increase). -/
theorem risk_to_priority_score_spec_witness :
    (risk_to_priority_score "medium" 80 ≤ risk_to_priority_score "high" 80 ∧
      risk_to_priority_score "low" 80 ≤ risk_to_priority_score "medium" 80) ∧
    risk_to_priority_score "high" 80 ≤ risk_to_priority_score "high" 100 ∧
    (0 ≤ risk_to_priority_score "low" 80 ∧
      risk_to_priority_score "low" 80 ≤ 100) := by
  have h := risk_to_priority_score_spec 80 (by norm_num) (by norm_num)
  exact ⟨h.1, h.2.1 "high" 100 (by norm_num) (by norm_num), h.2.2 "low"⟩

/-! ## C9: severity timeline decision table -/

/-- C9 (amended).  `predict_severity_timeline` is the first-match evaluation
of the fixed decision table keyed by risk tier then vital thresholds; for the
`high` and `medium` tiers a message is always returned; and for the `low`
tier it returns `none` (not an empty string) exactly when `spo2 ≥ 95` and
`temperature ≤ 37.5` — the only vitals the low-tier rules consult (heart rate
and blood pressure are not examined there). -/
theorem predict_severity_timeline_spec (spo2 heart_rate : ℤ)
    (temperature : ℚ) (bp : ℤ) :
    (∀ risk_level,
      risk_level = "low" ∨ risk_level = "medium" ∨ risk_level = "high" →
      predict_severity_timeline risk_level spo2 heart_rate temperature bp =
        sev_first_match risk_level spo2 heart_rate temperature bp) ∧
    (predict_severity_timeline "high" spo2 heart_rate temperature bp).isSome ∧
    (predict_severity_timeline "medium" spo2 heart_rate temperature bp).isSome ∧
    (predict_severity_timeline "low" spo2 heart_rate temperature bp = none ↔
      95 ≤ spo2 ∧ temperature ≤ 37.5) := by
  refine ⟨?_, ?_, ?_, ?_⟩
  · intro r hr
    rcases hr with rfl | rfl | rfl
    · by_cases ha : spo2 < 95 <;> by_cases hb : (37.5:ℚ) < temperature <;>
        simp [predict_severity_timeline, sev_first_match, severity_rules,
          ha, hb]
    · by_cases ha : 92 ≤ spo2 <;> by_cases hb : spo2 < 95 <;>
        by_cases hc : (38.5:ℚ) < temperature <;>
        by_cases hd : 100 < heart_rate <;>
        simp [predict_severity_timeline, sev_first_match, severity_rules,
          ha, hb, hc, hd]
    · by_cases ha : spo2 < 92 <;> by_cases hb : 120 < heart_rate <;>
        by_cases hc : 180 < bp <;>
        simp [predict_severity_timeline, sev_first_match, severity_rules,
          ha, hb, hc]
  · simp only [predict_severity_timeline, String.reduceEq, reduceIte]
    split_ifs <;> simp
  · simp only [predict_severity_timeline, String.reduceEq, reduceIte]
    split_ifs <;> simp
  · simp only [predict_severity_timeline, String.reduceEq, reduceIte]
    split_ifs with h
    · simp only [reduceCtorEq, false_iff, not_and, not_le]
      intro ha
      rcases h with h | h
      · exact absurd h (not_lt.mpr ha)
      · exact h
    · push_neg at h
      simp only [true_iff]
      exact h

/-- Witness for C9's amended theorem at concrete vitals. -/
theorem predict_severity_timeline_spec_witness :
    predict_severity_timeline "low" 97 60 37 110 =
      sev_first_match "low" 97 60 37 110 ∧
    (predict_severity_timeline "high" 97 60 37 110).isSome ∧
    (predict_severity_timeline "low" 97 60 37 110 = none ↔
      95 ≤ (97:ℤ) ∧ (37:ℚ) ≤ 37.5) := by
  have h := predict_severity_timeline_spec 97 60 37 110
  exact ⟨h.1 "low" (Or.inl rfl), h.2.1, h.2.2.2⟩

/-- C9 counterexample to the claim as stated: a low-risk case with
`spo2 = 97`, heart rate 130, temperature 37 and systolic pressure 150 gets no
message although the heart rate and blood pressure are far outside the
normal ranges the repository itself defines (`VITAL_RANGES` in
`validation.py`) — "returns none exactly when ... all vitals are in normal
range" fails in the only-if direction. -/
theorem predict_severity_timeline_c9_counterexample :
    predict_severity_timeline "low" 97 130 37 150 = none ∧
    ¬ vitals_in_normal_range 97 130 37 150 := by
  constructor
  · simp only [predict_severity_timeline, String.reduceEq, reduceIte]
    norm_num
  · decide

/-! ## C6: department recommendation rules -/

theorem append_ne_empty_left (s t : String) (h : s ≠ "") : s ++ t ≠ "" := by
  intro hc
  apply h
  have h2 := congrArg String.length hc
  rw [String.length_append] at h2
  have h0 : ("" : String).length = 0 := rfl
  rw [h0] at h2
  have hs : s.length = 0 := by omega
  cases s with
  | mk data =>
    cases data with
    | nil => rfl
    | cons c cs => simp [String.length] at hs

theorem matched_reason_ne_empty (r d : String) (hits : List String) :
    matched_reason r d hits ≠ "" := by
  unfold matched_reason
  apply append_ne_empty_left
  apply append_ne_empty_left
  apply append_ne_empty_left
  apply append_ne_empty_left
  apply append_ne_empty_left
  apply append_ne_empty_left
  apply append_ne_empty_left
  apply append_ne_empty_left
  apply append_ne_empty_left
  decide

theorem fallback_reason_ne_empty (r d c : String) :
    fallback_reason r d c ≠ "" := by
  unfold fallback_reason
  apply append_ne_empty_left
  apply append_ne_empty_left
  apply append_ne_empty_left
  apply append_ne_empty_left
  apply append_ne_empty_left
  apply append_ne_empty_left
  decide

theorem matched_reason_mentions_tier (r d : String) (hits : List String) :
    ∃ a b, matched_reason r d hits = a ++ r.toUpper ++ b :=
  ⟨"Risk assessment indicates ",
   " severity. " ++ "Clinical markers (" ++ joinComma hits ++
     ") align with " ++ d ++ " protocols. Recommended for immediate " ++ d ++
     " evaluation.",
   by unfold matched_reason; simp [String.append_assoc]⟩

theorem matched_reason_mentions_dept (r d : String) (hits : List String) :
    ∃ a b, matched_reason r d hits = a ++ d ++ b :=
  ⟨"Risk assessment indicates " ++ r.toUpper ++ " severity. " ++
     "Clinical markers (" ++ joinComma hits ++ ") align with ",
   " protocols. Recommended for immediate " ++ d ++ " evaluation.",
   by unfold matched_reason; simp [String.append_assoc]⟩

theorem fallback_reason_mentions_tier (r d c : String) :
    ∃ a b, fallback_reason r d c = a ++ r.toUpper ++ b :=
  ⟨"Risk assessment indicates ",
   " severity based on vitals analysis. " ++ c ++
     " No specific specialty criteria met; routing to " ++ d ++
     " for comprehensive workup.",
   by unfold fallback_reason; simp [String.append_assoc]⟩

theorem fallback_reason_mentions_dept (r d c : String) :
    ∃ a b, fallback_reason r d c = a ++ d ++ b :=
  ⟨"Risk assessment indicates " ++ r.toUpper ++
     " severity based on vitals analysis. " ++ c ++
     " No specific specialty criteria met; routing to ",
   " for comprehensive workup.",
   by unfold fallback_reason; simp [String.append_assoc]⟩

/-- C6.  `recommend_department` returns the target of the first rule of the
ordered table whose trigger set meets the symptom set; with no match it
returns the risk-tier default (high maps to Emergency, medium and low to
General Medicine); and the reasoning string is never empty and names the
(upper-cased) risk tier and the returned department. -/
theorem recommend_department_spec (risk_level : String) (symptoms : List String) :
    (∀ rule, SYMPTOM_TO_DEPT.find? (fun rule => rule.1.any (fun s => s ∈ symptoms)) = some rule →
      (recommend_department risk_level symptoms).1 = rule.2) ∧
    (SYMPTOM_TO_DEPT.find? (fun rule => rule.1.any (fun s => s ∈ symptoms)) = none →
      (recommend_department risk_level symptoms).1 = RISK_TO_DEFAULT_DEPT risk_level) ∧
    (risk_level = "high" → RISK_TO_DEFAULT_DEPT risk_level = "Emergency") ∧
    (risk_level = "medium" ∨ risk_level = "low" →
      RISK_TO_DEFAULT_DEPT risk_level = "General Medicine") ∧
    (recommend_department risk_level symptoms).2 ≠ "" ∧
    (∃ a b, (recommend_department risk_level symptoms).2 = a ++ risk_level.toUpper ++ b) ∧
    (∃ a b, (recommend_department risk_level symptoms).2 =
      a ++ (recommend_department risk_level symptoms).1 ++ b) := by
  have hdef : ∀ h : risk_level = "high", RISK_TO_DEFAULT_DEPT risk_level = "Emergency" := by
    rintro rfl; rfl
  have hdef2 : ∀ _ : risk_level = "medium" ∨ risk_level = "low",
      RISK_TO_DEFAULT_DEPT risk_level = "General Medicine" := by
    rintro (rfl | rfl) <;> rfl
  cases hfind : SYMPTOM_TO_DEPT.find? (fun rule => rule.1.any (fun s => s ∈ symptoms)) with
  | some rule =>
    have hres : recommend_department risk_level symptoms =
        (rule.2, matched_reason risk_level rule.2
          (rule.1.filter (fun s => s ∈ symptoms))) := by
      unfold recommend_department
      rw [hfind]
    refine ⟨?_, ?_, hdef, hdef2, ?_, ?_, ?_⟩
    · intro rule' h'
      cases h'
      rw [hres]
    · intro h'
      exact Option.noConfusion h'
    · rw [hres]
      exact matched_reason_ne_empty _ _ _
    · rw [hres]
      exact matched_reason_mentions_tier _ _ _
    · rw [hres]
      exact matched_reason_mentions_dept _ _ _
  | none =>
    have hres : recommend_department risk_level symptoms =
        (RISK_TO_DEFAULT_DEPT risk_level,
          fallback_reason risk_level (RISK_TO_DEFAULT_DEPT risk_level)
            (if symptoms.filter (fun s => s ∈ symptoms) ≠ [] then
              "Patient presents with " ++
                joinComma (symptoms.filter (fun s => s ∈ symptoms)) ++ "."
             else "Non-specific presentation.")) := by
      unfold recommend_department
      rw [hfind]
    refine ⟨?_, ?_, hdef, hdef2, ?_, ?_, ?_⟩
    · intro rule' h'
      exact Option.noConfusion h'
    · intro _
      rw [hres]
    · rw [hres]
      exact fallback_reason_ne_empty _ _ _
    · rw [hres]
      exact fallback_reason_mentions_tier _ _ _
    · rw [hres]
      exact fallback_reason_mentions_dept _ _ _


/-- Witness for C6: a high-risk chest-pain case hits the first Cardiology
rule. -/
theorem recommend_department_spec_witness :
    (recommend_department "high" ["chest_pain"]).1 = "Cardiology" ∧
    (recommend_department "high" ["chest_pain"]).2 ≠ "" ∧
    (∃ a b, (recommend_department "high" ["chest_pain"]).2 =
      a ++ ("high").toUpper ++ b) := by
  have h := recommend_department_spec "high" ["chest_pain"]
  exact ⟨h.1 (["chest_pain", "shortness_of_breath"], "Cardiology") rfl,
    h.2.2.2.2.1, h.2.2.2.2.2.1⟩

/-! ## C1: discharge clears the active flag and deletes nothing -/


theorem clear_active_update (p : Patient) :
    clear_active { p with is_active := false } = clear_active p := rfl

/-- C1.  A successful discharge never deletes a record: the roster keeps its
length, every record agrees with its old value on all fields other than the
active flag, records whose id does not match are completely untouched, and
the matched record is exactly its old value with the active flag cleared. -/
theorem discharge_patient_spec (roster : List Patient) (pid : String)
    (roster' : List Patient) (h : discharge_patient pid roster = some roster') :
    roster'.length = roster.length ∧
    roster'.map clear_active = roster.map clear_active ∧
    (∀ i (hi : i < roster.length) (hi' : i < roster'.length),
      (roster.get ⟨i, hi⟩).patient_id ≠ pid →
      roster'.get ⟨i, hi'⟩ = roster.get ⟨i, hi⟩) ∧
    (∃ i, ∃ hi : i < roster.length, ∃ hi' : i < roster'.length,
      (roster.get ⟨i, hi⟩).patient_id = pid ∧
      roster'.get ⟨i, hi'⟩ = clear_active (roster.get ⟨i, hi⟩)) := by
  induction roster generalizing roster' with
  | nil => exact Option.noConfusion h
  | cons r rs ih =>
    unfold discharge_patient at h
    by_cases hr : r.patient_id = pid
    · rw [if_pos hr] at h
      cases h
      refine ⟨by simp, ?_, ?_, ?_⟩
      · simp only [List.map_cons, clear_active_update]
      · intro i hi hi' hne
        cases i with
        | zero => exact absurd hr hne
        | succ j => rfl
      · exact ⟨0, by simp, by simp, hr, rfl⟩
    · rw [if_neg hr] at h
      cases hmap : discharge_patient pid rs with
      | none =>
        rw [hmap] at h
        exact Option.noConfusion h
      | some rest =>
        rw [hmap] at h
        rw [Option.map_some'] at h
        cases h
        obtain ⟨hlen, hmapEq, hpt, i, hi, hi', hpid, hval⟩ := ih rest hmap
        refine ⟨by simp [hlen], by simp [hmapEq], ?_, ?_⟩
        · intro i hi hi' hne
          cases i with
          | zero => rfl
          | succ j => exact hpt j (by simpa using hi) (by simpa using hi') hne
        · exact ⟨i + 1, by simpa using hi, by simpa using hi', hpid, hval⟩


/-- A concrete admitted patient used by witnesses. -/
def samplePatient : Patient :=
  { patient_id := "PT-20251012-AB12CD", risk_level := "high",
    confidence_score := 90, age := 61, gender := "male",
    symptoms := ["chest_pain"], recommended_department := "Cardiology",
    priority_score := 98, created_at := 10, estimated_wait_minutes := 15,
    is_active := true }

/-- Witness for C1 on a one-patient roster. -/
theorem discharge_patient_spec_witness :
    discharge_patient "PT-20251012-AB12CD" [samplePatient] =
      some [{ samplePatient with is_active := false }] ∧
    [({ samplePatient with is_active := false } : Patient)].map clear_active =
      [samplePatient].map clear_active := by
  have h := discharge_patient_spec [samplePatient] "PT-20251012-AB12CD"
    [{ samplePatient with is_active := false }] rfl
  exact ⟨rfl, h.2.1⟩

/-! ## C8: department counts sum to the routed-to-known-department cases -/


theorem mem_DEPARTMENTS_ne_empty (d : String) (h : d ∈ DEPARTMENTS) :
    d ≠ "" := by
  fin_cases h <;> decide

theorem sum_map_bump (acc : String → ℕ) (d : String) (hd : d ∈ DEPARTMENTS) :
    (DEPARTMENTS.map (bump acc d)).sum = (DEPARTMENTS.map acc).sum + 1 := by
  fin_cases hd <;> simp [DEPARTMENTS, bump] <;> omega

theorem counts_foldl (pats : List Patient) (acc : String → ℕ) :
    (DEPARTMENTS.map (pats.foldl
      (fun counts p =>
        let d := p.recommended_department
        if d ≠ "" ∧ d ∈ DEPARTMENTS then bump counts d else counts) acc)).sum =
      (DEPARTMENTS.map acc).sum +
        (pats.filter (fun p => p.recommended_department ∈ DEPARTMENTS)).length := by
  induction pats generalizing acc with
  | nil => simp
  | cons p ps ih =>
    simp only [List.foldl_cons, List.filter_cons]
    by_cases hp : p.recommended_department ∈ DEPARTMENTS
    · have hne : p.recommended_department ≠ "" := mem_DEPARTMENTS_ne_empty _ hp
      rw [if_pos ⟨hne, hp⟩]
      rw [ih (bump acc p.recommended_department)]
      rw [sum_map_bump acc _ hp]
      simp [hp]
      omega
    · have : ¬ (p.recommended_department ≠ "" ∧ p.recommended_department ∈ DEPARTMENTS) :=
        fun hc => hp hc.2
      rw [if_neg this]
      rw [ih acc]
      simp [hp]

/-- C8.  The department counts reported by the status operation sum to the
number of roster cases routed to a known department, and a case routed to an
unknown department changes no count. -/
theorem department_counts_sum (patients : List Patient) :
    ((get_department_status patients).map (fun s => s.current_patients)).sum =
      (patients.filter (fun p => p.recommended_department ∈ DEPARTMENTS)).length ∧
    (∀ p prior, p.recommended_department ∉ DEPARTMENTS →
      get_department_counts (prior ++ [p]) = get_department_counts prior) := by
  constructor
  · have hmap : (get_department_status patients).map (fun s => s.current_patients) =
        DEPARTMENTS.map (get_department_counts patients) := by
      simp [get_department_status, mk_status, List.map_map]
    rw [hmap]
    unfold get_department_counts
    have := counts_foldl patients (fun _ => 0)
    simpa using this
  · intro p prior hp
    unfold get_department_counts
    rw [List.foldl_append]
    simp only [List.foldl_cons, List.foldl_nil]
    rw [if_neg (fun hc => hp hc.2)]


/-- Witness for C8 on a one-patient roster plus an unknown-department case. -/
theorem department_counts_sum_witness :
    ((get_department_status [samplePatient]).map
        (fun s => s.current_patients)).sum =
      ([samplePatient].filter
        (fun p => p.recommended_department ∈ DEPARTMENTS)).length ∧
    get_department_counts
        ([samplePatient] ++ [{ samplePatient with recommended_department := "Radiology" }]) =
      get_department_counts [samplePatient] := by
  have h := department_counts_sum [samplePatient]
  exact ⟨h.1, h.2 { samplePatient with recommended_department := "Radiology" }
    [samplePatient] (by decide)⟩

/-! ## C10: unknown preferred department -/


theorem status_department_mem (patients : List Patient) (s : DeptStatus)
    (hs : s ∈ get_department_status patients) : s.department ∈ DEPARTMENTS := by
  unfold get_department_status at hs
  obtain ⟨d, hd, rfl⟩ := List.mem_map.mp hs
  exact hd

/-- C10 (amended).  With an unknown preferred department,
`route_with_load_balancing` does not fail: it returns the unknown preferred
department itself, unchanged, with an empty message (it does not substitute
any default department). -/
theorem route_unknown_department (preferred risk : String)
    (patients : List Patient) (h : preferred ∉ DEPARTMENTS) :
    route_with_load_balancing preferred risk patients = (preferred, "") := by
  have hfind : (get_department_status patients).find?
      (fun s => s.department = preferred) = none := by
    rw [List.find?_eq_none]
    intro s hs
    simp only [decide_eq_true_eq]
    intro hc
    exact h (hc ▸ status_department_mem patients s hs)
  unfold route_with_load_balancing find_alternate_department
  simp only [hfind]

/-- Witness for C10's amended theorem. -/
theorem route_unknown_department_witness :
    route_with_load_balancing "Oncology" "low" [] = ("Oncology", "") :=
  route_unknown_department "Oncology" "low" [] (by decide)

/-- C10 counterexample to the claim as stated: for the unknown preferred
department "Radiology" the router returns "Radiology" itself — not a member
of the department registry, hence not any default department (the defaults
are "Emergency" and "General Medicine"). -/
theorem route_unknown_department_counterexample :
    route_with_load_balancing "Radiology" "high" [] = ("Radiology", "") ∧
    "Radiology" ∉ DEPARTMENTS ∧
    "Radiology" ≠ RISK_TO_DEFAULT_DEPT "high" ∧
    "Radiology" ≠ RISK_TO_DEFAULT_DEPT "low" := by
  refine ⟨?_, by decide, by decide, by decide⟩
  have hfind : (get_department_status []).find?
      (fun s => s.department = "Radiology") = none := by
    rw [List.find?_eq_none]
    intro s hs
    simp only [decide_eq_true_eq]
    intro hc
    have hmem := status_department_mem [] s hs
    rw [hc] at hmem
    exact absurd hmem (by decide)
  unfold route_with_load_balancing find_alternate_department
  simp only [hfind]

/-! ## C2 and C7: overload routing and its audit message -/


theorem mk_status_department (patients : List Patient) (d : String) :
    (mk_status patients d).department = d := rfl

theorem mk_status_load (patients : List Patient) (d : String) :
    (mk_status patients d).load_percentage = dept_load_pct patients d := rfl

theorem mk_status_overloaded (patients : List Patient) (d : String) :
    (mk_status patients d).overloaded =
      decide (LOAD_THRESHOLD_PERCENT ≤ dept_load_pct patients d) := rfl

theorem find?_map_mk_status (names : List String) (patients : List Patient)
    (target : String) :
    (names.map (mk_status patients)).find? (fun s => s.department = target) =
      (names.find? (fun d => d = target)).map (mk_status patients) := by
  induction names with
  | nil => rfl
  | cons d ds ih =>
    by_cases hd : d = target
    · simp [mk_status_department, hd]
    · simp [mk_status_department, hd, ih]

theorem find?_eq_self_of_mem (l : List String) (x : String) (h : x ∈ l) :
    l.find? (fun d => d = x) = some x := by
  induction l with
  | nil => cases h
  | cons d ds ih =>
    by_cases hd : d = x
    · subst hd; simp
    · rcases List.mem_cons.mp h with rfl | hmem
      · exact absurd rfl hd
      · simp [hd, ih hmem]

theorem find?_eq_none_of_not_mem (l : List String) (x : String) (h : x ∉ l) :
    l.find? (fun d => d = x) = none := by
  rw [List.find?_eq_none]
  intro y hy
  simp only [decide_eq_true_eq]
  exact fun hc => h (hc ▸ hy)

theorem status_find_pref (patients : List Patient) (preferred : String)
    (hmem : preferred ∈ DEPARTMENTS) :
    (get_department_status patients).find? (fun s => s.department = preferred) =
      some (mk_status patients preferred) := by
  unfold get_department_status
  rw [find?_map_mk_status, find?_eq_self_of_mem _ _ hmem]
  rfl

theorem available_eq (patients : List Patient) (preferred : String) :
    available_departments preferred patients =
      (DEPARTMENTS.filter (fun d =>
        d ≠ preferred ∧
          dept_load_pct patients d < LOAD_THRESHOLD_PERCENT)).map
        (mk_status patients) := by
  unfold available_departments get_department_status
  rw [List.filter_map]
  congr 1
  apply List.filter_congr
  intro d _
  by_cases h1 : d = preferred <;>
    by_cases h2 : dept_load_pct patients d < LOAD_THRESHOLD_PERCENT <;>
    simp [mk_status, h1, h2, not_le, not_lt]
  linarith [not_lt.mp h2]

theorem find_in_available (patients : List Patient) (preferred d : String) :
    (available_departments preferred patients).find?
        (fun s => s.department = d) =
      if d ∈ DEPARTMENTS ∧ d ≠ preferred ∧
          dept_load_pct patients d < LOAD_THRESHOLD_PERCENT
      then some (mk_status patients d) else none := by
  rw [available_eq, find?_map_mk_status]
  by_cases hd : d ∈ DEPARTMENTS ∧ d ≠ preferred ∧
      dept_load_pct patients d < LOAD_THRESHOLD_PERCENT
  · rw [if_pos hd, find?_eq_self_of_mem]
    · rfl
    · rw [List.mem_filter]
      exact ⟨hd.1, by simp [hd.2.1, hd.2.2]⟩
  · rw [if_neg hd, find?_eq_none_of_not_mem]
    · rfl
    · intro hmem
      rw [List.mem_filter] at hmem
      apply hd
      refine ⟨hmem.1, ?_⟩
      simpa using hmem.2

theorem findSome?_choice (cands : List String) (patients : List Patient)
    (preferred : String) :
    cands.findSome? (fun d =>
        (available_departments preferred patients).find?
          (fun s => s.department = d)) =
      (cands.find? (fun d => d ∈ DEPARTMENTS ∧ d ≠ preferred ∧
          dept_load_pct patients d < LOAD_THRESHOLD_PERCENT)).map
        (mk_status patients) := by
  induction cands with
  | nil => rfl
  | cons d ds ih =>
    rw [List.findSome?_cons, find_in_available]
    by_cases hd : d ∈ DEPARTMENTS ∧ d ≠ preferred ∧
        dept_load_pct patients d < LOAD_THRESHOLD_PERCENT
    · simp [hd]
    · simp [hd, ih]



theorem deps_sub_critical (d : String) (h : d ∈ DEPARTMENTS) :
    d ∈ critical_depts := by
  fin_cases h <;> decide

theorem route_not_overloaded_eq (patients : List Patient)
    (preferred risk : String) (hmem : preferred ∈ DEPARTMENTS)
    (hlt : dept_load_pct patients preferred < LOAD_THRESHOLD_PERCENT) :
    route_with_load_balancing preferred risk patients = (preferred, "") := by
  unfold route_with_load_balancing find_alternate_department
  simp only [status_find_pref patients preferred hmem, mk_status_load]
  rw [if_pos hlt]

theorem route_overloaded_eq (patients : List Patient)
    (preferred risk : String) (hmem : preferred ∈ DEPARTMENTS)
    (hover : ¬ dept_load_pct patients preferred < LOAD_THRESHOLD_PERCENT) :
    route_with_load_balancing preferred risk patients =
      match critical_depts.find? (fun d => d ∈ DEPARTMENTS ∧ d ≠ preferred ∧
          dept_load_pct patients d < LOAD_THRESHOLD_PERCENT) with
      | some c => (c, routed_msg preferred (dept_load_pct patients preferred)
          c (dept_load_pct patients c))
      | none => (preferred,
          remains_msg preferred (dept_load_pct patients preferred)) := by
  unfold route_with_load_balancing find_alternate_department
  simp only [status_find_pref patients preferred hmem, mk_status_load]
  rw [if_neg hover]
  cases hcrit : critical_depts.find? (fun d => d ∈ DEPARTMENTS ∧ d ≠ preferred ∧
      dept_load_pct patients d < LOAD_THRESHOLD_PERCENT) with
  | some c =>
    have hc : c ∈ DEPARTMENTS ∧ c ≠ preferred ∧
        dept_load_pct patients c < LOAD_THRESHOLD_PERCENT := by
      have := List.find?_some hcrit
      simpa using this
    have hmemav : mk_status patients c ∈ available_departments preferred patients := by
      rw [available_eq]
      refine List.mem_map_of_mem _ ?_
      rw [List.mem_filter]
      exact ⟨hc.1, by simp [hc.2.1, hc.2.2]⟩
    cases havail : available_departments preferred patients with
    | nil => rw [havail] at hmemav; cases hmemav
    | cons alt0 tail =>
      have hfs := findSome?_choice critical_depts patients preferred
      rw [hcrit, Option.map_some'] at hfs
      rw [havail] at hfs
      rw [hfs]
      rfl
  | none =>
    have hnil : available_departments preferred patients = [] := by
      rw [available_eq]
      rw [List.map_eq_nil_iff]
      rw [List.filter_eq_nil_iff]
      intro d hd
      have hnot := List.find?_eq_none.mp hcrit d (deps_sub_critical d hd)
      simp only [decide_eq_true_eq] at hnot ⊢
      intro hcontra
      exact hnot ⟨hd, hcontra⟩
    cases havail : available_departments preferred patients with
    | nil => rfl
    | cons alt0 tail =>
      rw [havail] at hnil
      exact (List.cons_ne_nil _ _ hnil).elim



theorem append_ne_empty_right (s t : String) (h : t ≠ "") : s ++ t ≠ "" := by
  intro hc
  apply h
  have h2 := congrArg String.length hc
  rw [String.length_append] at h2
  have h0 : ("" : String).length = 0 := rfl
  rw [h0] at h2
  have ht : t.length = 0 := by omega
  cases t with
  | mk data =>
    cases data with
    | nil => rfl
    | cons c cs => simp [String.length] at ht

theorem find?_congr_mem (l : List String) (p q : String → Bool)
    (h : ∀ x ∈ l, p x = q x) : l.find? p = l.find? q := by
  induction l with
  | nil => rfl
  | cons d ds ih =>
    have hd := h d (List.mem_cons_self d ds)
    by_cases hp : p d = true
    · rw [List.find?_cons_of_pos _ hp, List.find?_cons_of_pos _ (hd ▸ hp)]
    · have hq : ¬ q d = true := fun hc => hp (hd.trans hc)
      rw [List.find?_cons_of_neg _ hp, List.find?_cons_of_neg _ hq]
      exact ih (fun x hx => h x (List.mem_cons_of_mem d hx))

/-- C2.  When the preferred department (load threshold 85) is overloaded:
if any other department is below the threshold, the routed department is
itself below the threshold, and it is exactly the first department with
capacity in the fixed preference order Emergency, Cardiology, Pulmonology,
Neurology, General Medicine. -/
theorem route_load_balancing_spec (patients : List Patient)
    (preferred risk : String) (hmem : preferred ∈ DEPARTMENTS)
    (hover : LOAD_THRESHOLD_PERCENT ≤ dept_load_pct patients preferred) :
    ((∃ d ∈ DEPARTMENTS, d ≠ preferred ∧
        dept_load_pct patients d < LOAD_THRESHOLD_PERCENT) →
      dept_load_pct patients
          (route_with_load_balancing preferred risk patients).1 <
        LOAD_THRESHOLD_PERCENT) ∧
    (∀ d₀, critical_depts.find? (fun d => d ≠ preferred ∧
          dept_load_pct patients d < LOAD_THRESHOLD_PERCENT) = some d₀ →
      (route_with_load_balancing preferred risk patients).1 = d₀) := by
  have hroute := route_overloaded_eq patients preferred risk hmem (not_lt.mpr hover)
  have hcongr : critical_depts.find? (fun d => d ∈ DEPARTMENTS ∧ d ≠ preferred ∧
        dept_load_pct patients d < LOAD_THRESHOLD_PERCENT) =
      critical_depts.find? (fun d => d ≠ preferred ∧
        dept_load_pct patients d < LOAD_THRESHOLD_PERCENT) := by
    apply find?_congr_mem
    intro x hx
    fin_cases hx <;> simp [DEPARTMENTS]
  constructor
  · rintro ⟨d, hd, hne, hlt⟩
    rw [hroute]
    cases hcrit : critical_depts.find? (fun d => d ∈ DEPARTMENTS ∧ d ≠ preferred ∧
        dept_load_pct patients d < LOAD_THRESHOLD_PERCENT) with
    | none =>
      exfalso
      have hnone := List.find?_eq_none.mp hcrit d (deps_sub_critical d hd)
      simp only [decide_eq_true_eq] at hnone
      exact hnone ⟨hd, hne, hlt⟩
    | some c =>
      have hc := List.find?_some hcrit
      simp only [decide_eq_true_eq] at hc
      exact hc.2.2
  · intro d₀ h₀
    rw [hroute, hcongr, h₀]

/-- C7.  For a known preferred department the routing message is non-empty
iff the preferred department's load percentage is at or above the 85
threshold; and when it is overloaded and every other department is too, the
result is the original preferred department with the explicit non-empty
remains-overloaded message — never an empty or null result. -/
theorem route_message_spec (patients : List Patient) (preferred risk : String)
    (hmem : preferred ∈ DEPARTMENTS) :
    ((route_with_load_balancing preferred risk patients).2 ≠ "" ↔
      LOAD_THRESHOLD_PERCENT ≤ dept_load_pct patients preferred) ∧
    (LOAD_THRESHOLD_PERCENT ≤ dept_load_pct patients preferred →
      (∀ d ∈ DEPARTMENTS, d ≠ preferred →
        LOAD_THRESHOLD_PERCENT ≤ dept_load_pct patients d) →
      route_with_load_balancing preferred risk patients =
        (preferred, remains_msg preferred (dept_load_pct patients preferred)) ∧
      remains_msg preferred (dept_load_pct patients preferred) ≠ "") := by
  by_cases hlt : dept_load_pct patients preferred < LOAD_THRESHOLD_PERCENT
  · have hroute := route_not_overloaded_eq patients preferred risk hmem hlt
    rw [hroute]
    constructor
    · constructor
      · intro hc
        exact absurd rfl hc
      · intro hc
        exact absurd hc (not_le.mpr hlt)
    · intro hov _
      exact absurd hov (not_le.mpr hlt)
  · have hover := not_lt.mp hlt
    have hroute := route_overloaded_eq patients preferred risk hmem hlt
    rw [hroute]
    cases hcrit : critical_depts.find? (fun d => d ∈ DEPARTMENTS ∧ d ≠ preferred ∧
        dept_load_pct patients d < LOAD_THRESHOLD_PERCENT) with
    | some c =>
      have hc := List.find?_some hcrit
      simp only [decide_eq_true_eq] at hc
      constructor
      · constructor
        · intro _
          exact hover
        · intro _
          show routed_msg _ _ _ _ ≠ ""
          unfold routed_msg
          apply append_ne_empty_right
          decide
      · intro _ hall
        exact absurd (hall c hc.1 hc.2.1) (not_le.mpr hc.2.2)
    | none =>
      constructor
      · constructor
        · intro _
          exact hover
        · intro _
          show remains_msg _ _ ≠ ""
          unfold remains_msg
          apply append_ne_empty_right
          decide
      · intro _ _
        refine ⟨rfl, ?_⟩
        unfold remains_msg
        apply append_ne_empty_right
        decide

def overloadRoster : List Patient := List.replicate 15 samplePatient

theorem overload_counts_card :
    get_department_counts overloadRoster "Cardiology" = 15 := by decide

theorem overload_counts_emerg :
    get_department_counts overloadRoster "Emergency" = 0 := by decide

theorem roundHalfEven_intCast (n : ℤ) : roundHalfEven ((n:ℚ)) = n := by
  unfold roundHalfEven
  rw [Int.fract_intCast]
  rw [if_pos (by norm_num)]
  exact Int.floor_intCast n

theorem round1_intCast (n : ℤ) : round1 ((n:ℚ)) = n := by
  unfold round1
  have h : (10:ℚ) * (n:ℚ) = ((10 * n : ℤ) : ℚ) := by push_cast; ring
  rw [h, roundHalfEven_intCast]
  push_cast
  ring

theorem overload_load_card : dept_load_pct overloadRoster "Cardiology" = 100 := by
  unfold dept_load_pct
  rw [overload_counts_card]
  have hcap : dept_capacity "Cardiology" = 15 := by decide
  rw [hcap]
  rw [if_pos (by norm_num)]
  have harg : 100 * ((15:ℕ):ℚ) / ((15:ℕ):ℚ) = ((100:ℤ):ℚ) := by push_cast; norm_num
  rw [harg, round1_intCast]
  norm_num

theorem overload_load_emerg : dept_load_pct overloadRoster "Emergency" = 0 := by
  unfold dept_load_pct
  rw [overload_counts_emerg]
  have hcap : dept_capacity "Emergency" = 25 := by decide
  rw [hcap]
  rw [if_pos (by norm_num)]
  have harg : 100 * ((0:ℕ):ℚ) / ((25:ℕ):ℚ) = ((0:ℤ):ℚ) := by push_cast; norm_num
  rw [harg, round1_intCast]
  norm_num

theorem route_load_balancing_spec_witness :
    (route_with_load_balancing "Cardiology" "high" overloadRoster).1 =
      "Emergency" ∧
    dept_load_pct overloadRoster "Emergency" < LOAD_THRESHOLD_PERCENT := by
  have h := route_load_balancing_spec overloadRoster "Cardiology" "high"
    (by decide) (by rw [overload_load_card]; norm_num [LOAD_THRESHOLD_PERCENT])
  have hfind : critical_depts.find? (fun d => d ≠ "Cardiology" ∧
      dept_load_pct overloadRoster d < LOAD_THRESHOLD_PERCENT) = some "Emergency" := by
    rw [critical_depts]
    rw [List.find?_cons_of_pos]
    rw [overload_load_emerg]
    norm_num [LOAD_THRESHOLD_PERCENT]
    decide
  refine ⟨h.2 "Emergency" hfind, ?_⟩
  rw [overload_load_emerg]
  norm_num [LOAD_THRESHOLD_PERCENT]

theorem route_message_spec_witness :
    ((route_with_load_balancing "Cardiology" "low" overloadRoster).2 ≠ "" ↔
      LOAD_THRESHOLD_PERCENT ≤ dept_load_pct overloadRoster "Cardiology") :=
  (route_message_spec overloadRoster "Cardiology" "low" (by decide)).1


/-! ## C4: batch wait-time recompute -/


theorem wait_minutes_for_ge_five (rank dc hc : ℕ) (pr : ℤ) :
    5 ≤ wait_minutes_for rank dc hc pr :=
  le_max_left _ _

theorem wait_factor_pos (pr : ℤ) : (0:ℚ) < max (1/2) ((pr : ℚ) / 50) :=
  lt_of_lt_of_le (by norm_num) (le_max_left _ _)

theorem wait_minutes_for_rank_mono (i j dc hc : ℕ) (pr : ℤ) (h : i < j) :
    wait_minutes_for i dc hc pr ≤ wait_minutes_for j dc hc pr := by
  unfold wait_minutes_for
  refine max_le_max le_rfl (pyInt_mono ?_)
  have hij : ((i:ℚ) + 1) ≤ ((j:ℚ) + 1) := by
    have : (i:ℚ) ≤ (j:ℚ) := by exact_mod_cast h.le
    linarith
  rw [div_le_div_iff_of_pos_right (wait_factor_pos pr)]
  have hL : (0:ℚ) ≤ 1 + (dc:ℚ) * (1/10) := by positivity
  have hP : (0:ℚ) ≤ 1 + (hc:ℚ) * (15/100) := by positivity
  refine mul_le_mul_of_nonneg_right (mul_le_mul_of_nonneg_right ?_ hL) hP
  have h15 : BASE_WAIT_MINUTES = 15 := rfl
  rw [h15]
  linarith

theorem wait_minutes_for_priority_antitone (i dc hc : ℕ) (pr pr' : ℤ)
    (h : pr < pr') :
    wait_minutes_for i dc hc pr' ≤ wait_minutes_for i dc hc pr := by
  unfold wait_minutes_for
  refine max_le_max le_rfl (pyInt_mono ?_)
  have hf : max (1/2 : ℚ) ((pr : ℚ) / 50) ≤ max (1/2) ((pr' : ℚ) / 50) := by
    refine max_le_max le_rfl ?_
    have : (pr:ℚ) ≤ (pr':ℚ) := by exact_mod_cast h.le
    linarith
  have hN : (0:ℚ) ≤ BASE_WAIT_MINUTES * ((i:ℚ) + 1) * (1 + (dc:ℚ) * (1/10)) *
      (1 + (hc:ℚ) * (15/100)) := by
    have h15 : BASE_WAIT_MINUTES = 15 := rfl
    rw [h15]
    positivity
  exact div_le_div_of_nonneg_left hN (wait_factor_pos pr) hf

theorem strip_wait_set (p : Patient) (w : ℤ) :
    strip_wait { p with estimated_wait_minutes := w } = strip_wait p := rfl

/-- C4.  The wait recompute processes the roster sorted by priority score
descending then creation timestamp ascending (a stable total preorder); the
records are the same multiset (waits aside); every resulting wait is at least
the 5-minute floor (hence non-negative); and in the per-slot formula a
strictly later rank never gives a smaller wait and a strictly higher own
priority never gives a larger wait, all else equal. -/
theorem update_estimated_waits_spec (store : List Patient) :
    List.Sorted waitRel (_update_estimated_waits store) ∧
    ((_update_estimated_waits store).map strip_wait).Perm
      (store.map strip_wait) ∧
    (∀ p ∈ _update_estimated_waits store, 5 ≤ p.estimated_wait_minutes) ∧
    (∀ i j dc hc pr, i < j →
      wait_minutes_for i dc hc pr ≤ wait_minutes_for j dc hc pr) ∧
    (∀ i dc hc pr pr', pr < pr' →
      wait_minutes_for i dc hc pr' ≤ wait_minutes_for i dc hc pr) := by
  refine ⟨?_, ?_, ?_, fun i j dc hc pr h => wait_minutes_for_rank_mono i j dc hc pr h,
    fun i dc hc pr pr' h => wait_minutes_for_priority_antitone i dc hc pr pr' h⟩
  · by_cases hs : store = []
    · simp [_update_estimated_waits, hs]
    · simp only [_update_estimated_waits, hs, if_false, if_neg, reduceIte]
      have hsorted : List.Sorted waitRel (List.insertionSort waitRel store) :=
        List.sorted_insertionSort waitRel store
      have h1 : List.Pairwise (fun a b : ℕ × Patient => waitRel a.2 b.2)
          (List.insertionSort waitRel store).enum := by
        rw [← List.pairwise_map (f := Prod.snd)]
        rw [List.enum_map_snd]
        exact hsorted
      rw [List.Sorted, List.pairwise_map]
      exact h1
  · by_cases hs : store = []
    · simp [_update_estimated_waits, hs]
    · simp only [_update_estimated_waits, hs, if_false, if_neg, reduceIte]
      have hmap : (((List.insertionSort waitRel store).enum.map
          (fun ip : ℕ × Patient =>
            { ip.2 with
                estimated_wait_minutes :=
                  wait_minutes_for ip.1
                    (load_lookup (dept_load_map store) ip.2.recommended_department)
                    ((store.filter (fun p => p.risk_level = "high")).length)
                    ip.2.priority_score })).map strip_wait) =
          (List.insertionSort waitRel store).map strip_wait := by
        rw [List.map_map]
        conv_rhs => rw [← List.enum_map_snd (List.insertionSort waitRel store)]
        rw [List.map_map]
        rfl
      rw [hmap]
      exact (List.perm_insertionSort waitRel store).map strip_wait
  · by_cases hs : store = []
    · simp [_update_estimated_waits, hs]
    · simp only [_update_estimated_waits, hs, if_false, if_neg, reduceIte]
      intro p hp
      obtain ⟨ip, _, rfl⟩ := List.mem_map.mp hp
      exact wait_minutes_for_ge_five _ _ _ _


/-- Witness for C4 on a one-patient roster and concrete formula inputs. -/
theorem update_estimated_waits_spec_witness :
    List.Sorted waitRel (_update_estimated_waits [samplePatient]) ∧
    wait_minutes_for 0 2 1 50 ≤ wait_minutes_for 1 2 1 50 ∧
    wait_minutes_for 0 2 1 60 ≤ wait_minutes_for 0 2 1 50 := by
  have h := update_estimated_waits_spec [samplePatient]
  exact ⟨h.1, h.2.2.2.1 0 1 2 1 50 (by norm_num),
    h.2.2.2.2 0 2 1 50 60 (by norm_num)⟩

/-! ## C5: fairness imbalance alert -/


theorem alert_eq (patients : List Patient) :
    (compute_fairness_metrics patients).imbalance_alert =
      imbalance_alert patients := by
  by_cases h : patients = []
  · subst h; rfl
  · simp [compute_fairness_metrics, h]

theorem mem_keyOrder (xs : List String) (x : String) :
    x ∈ keyOrder xs ↔ x ∈ xs := by
  unfold keyOrder
  suffices h : ∀ acc, x ∈ xs.foldl insertKey acc ↔ x ∈ acc ∨ x ∈ xs by
    simpa using h []
  induction xs with
  | nil => intro acc; simp
  | cons y ys ih =>
    intro acc
    rw [List.foldl_cons, ih (insertKey acc y)]
    unfold insertKey
    by_cases hy : y ∈ acc
    · rw [if_pos hy]
      have hxy : x = y → x ∈ acc := fun he => he ▸ hy
      simp only [List.mem_cons]
      tauto
    · rw [if_neg hy]
      simp only [List.mem_append, List.mem_cons, List.mem_singleton]
      tauto

theorem mem_genderOrder (patients : List Patient) (g : String) :
    g ∈ genderOrder patients ↔ ∃ p ∈ patients, p.gender = g := by
  unfold genderOrder
  rw [mem_keyOrder]
  simp [List.mem_map]

/-- C5.  The fairness monitor fires an imbalance alert iff some present
demographic group (gender or age bucket) has a high-risk rate strictly above
twice the mean of all group rates and that mean is positive; the alert names
the first offending group in the stable scan order — gender groups in
first-occurrence order, then age groups; and on an empty roster it returns
empty matrices and no alert. -/
theorem compute_fairness_metrics_spec (patients : List Patient) :
    compute_fairness_metrics [] =
      ⟨[], [], none, [], [], none, [], []⟩ ∧
    (((compute_fairness_metrics patients).imbalance_alert).isSome ↔
      (0 < avg_rate patients ∧
        ((∃ g ∈ genderOrder patients,
            gender_rate patients g > avg_rate patients * 2) ∨
         (∃ a ∈ ageOrder patients,
            age_rate patients a > avg_rate patients * 2)))) ∧
    (∀ g, g ∈ genderOrder patients ↔ ∃ p ∈ patients, p.gender = g) ∧
    (∀ g, (genderOrder patients).find?
        (fun g => decide (0 < avg_rate patients) &&
          decide (gender_rate patients g > avg_rate patients * 2)) = some g →
      (compute_fairness_metrics patients).imbalance_alert =
        some (gender_alert_msg g (gender_rate patients g) (avg_rate patients)) ∧
      ∃ pre post, gender_alert_msg g (gender_rate patients g)
        (avg_rate patients) = pre ++ g ++ post) ∧
    ((genderOrder patients).find?
        (fun g => decide (0 < avg_rate patients) &&
          decide (gender_rate patients g > avg_rate patients * 2)) = none →
      ∀ a, (ageOrder patients).find?
        (fun a => decide (0 < avg_rate patients) &&
          decide (age_rate patients a > avg_rate patients * 2)) = some a →
      (compute_fairness_metrics patients).imbalance_alert =
        some (age_alert_msg a (age_rate patients a) (avg_rate patients)) ∧
      ∃ pre post, age_alert_msg a (age_rate patients a)
        (avg_rate patients) = pre ++ a ++ post) := by
  refine ⟨rfl, ?_, mem_genderOrder patients, ?_, ?_⟩
  · rw [alert_eq]
    simp only [imbalance_alert]
    cases hg : (genderOrder patients).find?
        (fun g => decide (0 < avg_rate patients) &&
          decide (gender_rate patients g > avg_rate patients * 2)) with
    | some g =>
      have hp := List.find?_some hg
      simp only [Bool.and_eq_true, decide_eq_true_eq] at hp
      have hmem := List.mem_of_find?_eq_some hg
      simp only [Option.isSome_some, true_iff]
      exact ⟨hp.1, Or.inl ⟨g, hmem, hp.2⟩⟩
    | none =>
      cases ha : (ageOrder patients).find?
          (fun a => decide (0 < avg_rate patients) &&
            decide (age_rate patients a > avg_rate patients * 2)) with
      | some a =>
        have hp := List.find?_some ha
        simp only [Bool.and_eq_true, decide_eq_true_eq] at hp
        have hmem := List.mem_of_find?_eq_some ha
        simp only [Option.map_some', Option.isSome_some, true_iff]
        exact ⟨hp.1, Or.inr ⟨a, hmem, hp.2⟩⟩
      | none =>
        simp only [Option.map_none', Option.isSome_none, Bool.false_eq_true,
          false_iff]
        rintro ⟨havg, hex | hex⟩
        · obtain ⟨g, hmem, hrate⟩ := hex
          have := List.find?_eq_none.mp hg g hmem
          simp only [Bool.and_eq_true, decide_eq_true_eq, not_and] at this
          exact absurd hrate (this havg)
        · obtain ⟨a, hmem, hrate⟩ := hex
          have := List.find?_eq_none.mp ha a hmem
          simp only [Bool.and_eq_true, decide_eq_true_eq, not_and] at this
          exact absurd hrate (this havg)
  · intro g hg
    rw [alert_eq]
    simp only [imbalance_alert]
    rw [hg]
    refine ⟨rfl, ?_⟩
    refine ⟨"Gender \x27",
      "\x27 has high-risk rate " ++ fmtQ (round1 (gender_rate patients g)) ++
        "% (avg " ++ fmtQ (round1 (avg_rate patients)) ++
        "%). Consider reviewing for bias.", ?_⟩
    unfold gender_alert_msg
    simp [String.append_assoc]
  · intro hg a ha
    rw [alert_eq]
    simp only [imbalance_alert]
    rw [hg, ha]
    refine ⟨rfl, ?_⟩
    refine ⟨"Age group \x27",
      "\x27 has high-risk rate " ++ fmtQ (round1 (age_rate patients a)) ++
        "% (avg " ++ fmtQ (round1 (avg_rate patients)) ++
        "%). Consider reviewing for bias.", ?_⟩
    unfold age_alert_msg
    simp [String.append_assoc]



def biasPatient (pid gender risk : String) (age : ℤ) : Patient :=
  { samplePatient with patient_id := pid, gender := gender, risk_level := risk, age := age }

def biasRoster : List Patient :=
  [ biasPatient "PT-A" "male" "high" 10,
    biasPatient "PT-B" "female" "low" 30,
    biasPatient "PT-C" "female" "low" 45 ]

theorem bias_gender_rate_male : gender_rate biasRoster "male" = 100 := by
  unfold gender_rate gender_total gender_risk_count
  have h1 : (biasRoster.filter (fun p => p.gender = "male")).length = 1 := by
    decide
  have h2 : (biasRoster.filter
      (fun p => p.gender = "male" ∧ p.risk_level = "high")).length = 1 := by
    decide
  rw [h1, h2]
  norm_num

theorem bias_gender_rate_female : gender_rate biasRoster "female" = 0 := by
  unfold gender_rate gender_total gender_risk_count
  have h1 : (biasRoster.filter (fun p => p.gender = "female")).length = 2 := by
    decide
  have h2 : (biasRoster.filter
      (fun p => p.gender = "female" ∧ p.risk_level = "high")).length = 0 := by
    decide
  rw [h1, h2]
  norm_num

theorem bias_age_rate_child : age_rate biasRoster "0-17" = 100 := by
  unfold age_rate age_total age_risk_count
  have h1 : (biasRoster.filter (fun p => age_group p.age = "0-17")).length = 1 := by
    decide
  have h2 : (biasRoster.filter
      (fun p => age_group p.age = "0-17" ∧ p.risk_level = "high")).length = 1 := by
    decide
  rw [h1, h2]
  norm_num

theorem bias_age_rate_young : age_rate biasRoster "18-39" = 0 := by
  unfold age_rate age_total age_risk_count
  have h1 : (biasRoster.filter (fun p => age_group p.age = "18-39")).length = 1 := by
    decide
  have h2 : (biasRoster.filter
      (fun p => age_group p.age = "18-39" ∧ p.risk_level = "high")).length = 0 := by
    decide
  rw [h1, h2]
  norm_num

theorem bias_age_rate_mid : age_rate biasRoster "40-59" = 0 := by
  unfold age_rate age_total age_risk_count
  have h1 : (biasRoster.filter (fun p => age_group p.age = "40-59")).length = 1 := by
    decide
  have h2 : (biasRoster.filter
      (fun p => age_group p.age = "40-59" ∧ p.risk_level = "high")).length = 0 := by
    decide
  rw [h1, h2]
  norm_num

theorem bias_genderOrder : genderOrder biasRoster = ["male", "female"] := by
  decide

theorem bias_ageOrder : ageOrder biasRoster = ["0-17", "18-39", "40-59"] := by
  decide

theorem bias_avg_rate : avg_rate biasRoster = 40 := by
  unfold avg_rate
  rw [bias_genderOrder, bias_ageOrder]
  simp only [List.map_cons, List.map_nil, List.cons_append, List.nil_append,
    bias_gender_rate_male, bias_gender_rate_female, bias_age_rate_child,
    bias_age_rate_young, bias_age_rate_mid]
  norm_num

/-- Witness for C5: a roster whose male group has a 100% high-risk rate
against a 40% group mean fires the gender alert, naming the male group. -/
theorem compute_fairness_metrics_spec_witness :
    ((compute_fairness_metrics biasRoster).imbalance_alert).isSome ∧
    (compute_fairness_metrics biasRoster).imbalance_alert =
      some (gender_alert_msg "male" (gender_rate biasRoster "male")
        (avg_rate biasRoster)) := by
  have h := compute_fairness_metrics_spec biasRoster
  have hfind : (genderOrder biasRoster).find?
      (fun g => decide (0 < avg_rate biasRoster) &&
        decide (gender_rate biasRoster g > avg_rate biasRoster * 2)) =
      some "male" := by
    rw [bias_genderOrder, List.find?_cons_of_pos]
    rw [bias_avg_rate, bias_gender_rate_male]
    norm_num
  have hco := h.2.2.2.1 "male" hfind
  refine ⟨?_, hco.1⟩
  rw [hco.1]
  rfl


end Triage
